import Mathlib

/-!
Verification of the checkpoint-output dispatch layer
(`crates/sui-core/src/checkpoints/checkpoint_output.rs`).

The layer hands a locally finalized checkpoint (and later its certified form)
to three consumers: a logging sink, the consensus-submission sink, and a
state-sync forwarding pair connected by a bounded queue.

The shallow embedding models each sink operation as a pure function that
returns the list of observable events it emits (log records, consensus
submissions) together with its `SuiResult`.  The bounded queue and the
background forwarding task are modelled as a labelled transition system on an
explicit system state.  Types owned by other crates (`sui-types`, `tokio`)
are modelled from the specification of their interfaces, as noted on each.
-/

/-- Modelled from the spec: digests are opaque identifiers owned by
`sui-types`; we represent them as natural numbers. -/
abbrev Digest := Nat

/-- Modelled from the spec: a validator's public identity (`AuthorityName`
in `sui-types`), opaque here. -/
abbrev AuthorityName := Nat

/-- Modelled from the spec: an individual validator signature, opaque. -/
abbrev Signature := Nat

/-- Modelled from the spec: an aggregated quorum signature, opaque. -/
abbrev AggregateAuthoritySignature := Nat

/-- Modelled from the spec: `SuiError` is an opaque error value. -/
abbrev SuiError := Nat

/-- `SuiResult` from `sui-types`: success or a `SuiError`. -/
abbrev SuiResult := Except SuiError Unit

/-- Modelled from the spec: `CheckpointSummary` — an immutable value with a
sequence number, the digest of the previous checkpoint (or none at epoch
start), and the digest of its contents.  Produced by the external builder
and read-only in this layer. -/
structure CheckpointSummary where
  sequence_number : Nat
  previous_digest : Option Digest
  content_digest : Digest
deriving DecidableEq, Repr

/-- Modelled from the spec: the digest of the summary's own canonical
encoding.  We use an injective encoding of the fields into `Nat`. -/
def CheckpointSummary.digest (s : CheckpointSummary) : Digest :=
  Nat.pair s.sequence_number
    (Nat.pair s.content_digest
      (match s.previous_digest with
       | none => 0
       | some d => d + 1))

/-- Modelled from the spec: `CheckpointContents` — the ordered sequence of
executed-transaction references belonging to the checkpoint. -/
structure CheckpointContents where
  transactions : List Digest
deriving DecidableEq, Repr

/-- `CheckpointContents::size`: the number of transaction references. -/
def CheckpointContents.size (c : CheckpointContents) : Nat :=
  c.transactions.length

/-- Modelled from the spec: the authority/signature pair attached to a
signed checkpoint summary. -/
structure AuthoritySignInfo where
  authority : AuthorityName
  signature : Signature
deriving DecidableEq, Repr

/-- Modelled from the spec: `SignedCheckpointSummary` — a
`CheckpointSummary` paired with one validator's signature and identity. -/
structure SignedCheckpointSummary where
  summary : CheckpointSummary
  auth_signature : AuthoritySignInfo
deriving DecidableEq, Repr

/-- Modelled from the spec: `SignedCheckpointSummary::new_from_summary` —
sign the summary with the local key and tag the result with the local
validator identity.  The signing capability is a function from summaries to
signatures ("produce a signature over bytes, identified by a public
identity"). -/
def SignedCheckpointSummary.new_from_summary (summary : CheckpointSummary)
    (authority : AuthorityName) (signer : CheckpointSummary → Signature) :
    SignedCheckpointSummary :=
  { summary := summary,
    auth_signature := { authority := authority, signature := signer summary } }

/-- `CheckpointSignatureMessage` from `sui-types`: wraps one signed
checkpoint summary. -/
structure CheckpointSignatureMessage where
  summary : SignedCheckpointSummary
deriving DecidableEq, Repr

/-- Modelled from the spec: `ConsensusTransaction` is an envelope carrying
one of several payload kinds; in this layer it is always constructed with
the checkpoint-signature-message payload. -/
inductive ConsensusTransactionKind where
  | userTransaction (payload : Nat)
  | checkpointSignature (message : CheckpointSignatureMessage)
deriving DecidableEq, Repr

/-- Modelled from the spec: the consensus transaction envelope. -/
structure ConsensusTransaction where
  kind : ConsensusTransactionKind
deriving DecidableEq, Repr

/-- Modelled from the spec:
`ConsensusTransaction::new_checkpoint_signature_message`. -/
def ConsensusTransaction.new_checkpoint_signature_message
    (message : CheckpointSignatureMessage) : ConsensusTransaction :=
  { kind := ConsensusTransactionKind.checkpointSignature message }

/-- All checkpoint-signature-message payloads carried by a transaction (the
envelope holds exactly one payload, which may or may not be of this kind). -/
def ConsensusTransaction.checkpointSignaturePayloads
    (t : ConsensusTransaction) : List SignedCheckpointSummary :=
  match t.kind with
  | ConsensusTransactionKind.userTransaction _ => []
  | ConsensusTransactionKind.checkpointSignature message => [message.summary]

/-- Modelled from the spec: `CertifiedCheckpointSummary` — a
`CheckpointSummary` paired with an aggregated quorum signature. -/
structure CertifiedCheckpointSummary where
  summary : CheckpointSummary
  auth_signature : AggregateAuthoritySignature
deriving DecidableEq, Repr

/-- Rust `to_owned` (clone); cloning a value type is the identity. -/
def CertifiedCheckpointSummary.to_owned (s : CertifiedCheckpointSummary) :
    CertifiedCheckpointSummary := s

/-- Modelled from the spec: `VerifiedCheckpoint` — a checkpoint marked as
already validated; constructible only via the unchecked conversion. -/
structure VerifiedCheckpoint where
  inner : CertifiedCheckpointSummary
deriving DecidableEq, Repr

/-- Modelled from the spec: `VerifiedCheckpoint::new_unchecked` — the
trusted conversion that bypasses re-validation. -/
def VerifiedCheckpoint.new_unchecked (s : CertifiedCheckpointSummary) :
    VerifiedCheckpoint :=
  { inner := s }

/-- Observable events emitted by the sinks in this layer: the structured
log records of `checkpoint_output.rs` and consensus submissions. -/
inductive SinkEvent where
  /-- `debug!("Including following transactions in checkpoint {} ...")`. -/
  | logDebugTransactions (seq : Nat) (transactions : List Digest)
  /-- `info!("Creating checkpoint ...")` with digest, sequence number,
  previous digest, transaction count, content digest and the epoch flag. -/
  | logCreateCheckpoint (digest : Digest) (seq : Nat)
      (previous : Option Digest) (txCount : Nat) (contentDigest : Digest)
      (lastOfEpoch : Bool)
  /-- `info!("Certified checkpoint with sequence {} and digest {}")`. -/
  | logCertifiedCheckpoint (seq : Nat) (digest : Digest)
  /-- `error!("unable to send checkpoint to state-sync: {e}")`. -/
  | logSendToStateSyncError
  /-- `self.sender.submit_to_consensus(&transaction)`. -/
  | submitToConsensus (transaction : ConsensusTransaction)
deriving DecidableEq, Repr

/-- Whether an event is a log record (as opposed to a consensus
submission). -/
def SinkEvent.isLog : SinkEvent → Bool
  | SinkEvent.submitToConsensus _ => false
  | _ => true

/-- The consensus transactions submitted in a trace, in order. -/
def submittedTransactions (trace : List SinkEvent) : List ConsensusTransaction :=
  trace.filterMap fun e =>
    match e with
    | SinkEvent.submitToConsensus t => some t
    | _ => none

/-- `LogCheckpointOutput`'s `CheckpointOutput::checkpoint_created`: emits
the two log records and returns `Ok(())`. -/
def LogCheckpointOutput.checkpoint_created (summary : CheckpointSummary)
    (contents : CheckpointContents) (last_checkpoint_of_epoch : Bool) :
    List SinkEvent × SuiResult :=
  ([SinkEvent.logDebugTransactions summary.sequence_number contents.transactions,
    SinkEvent.logCreateCheckpoint summary.digest summary.sequence_number
      summary.previous_digest contents.size summary.content_digest
      last_checkpoint_of_epoch],
   Except.ok ())

/-- `LogCheckpointOutput`'s
`CertifiedCheckpointOutput::certified_checkpoint_created`: emits one log
record and returns `Ok(())`. -/
def LogCheckpointOutput.certified_checkpoint_created
    (summary : CertifiedCheckpointSummary) : List SinkEvent × SuiResult :=
  ([SinkEvent.logCertifiedCheckpoint summary.summary.sequence_number
      summary.summary.digest],
   Except.ok ())

/-- `SubmitCheckpointToConsensus`: holds the consensus-submission
capability (modelled as the function giving the result of submitting a
transaction), the signing capability, and the local validator identity. -/
structure SubmitCheckpointToConsensus where
  sender : ConsensusTransaction → SuiResult
  signer : CheckpointSummary → Signature
  authority : AuthorityName

/-- `SubmitCheckpointToConsensus::checkpoint_created`: delegate to
`LogCheckpointOutput` first, propagating any error (the `?` operator); the
`last_checkpoint_of_epoch` hook is an empty block in the source; then sign
the summary, wrap it in a checkpoint-signature-message consensus
transaction, submit it, and return the submission's result. -/
def SubmitCheckpointToConsensus.checkpoint_created
    (self : SubmitCheckpointToConsensus) (summary : CheckpointSummary)
    (contents : CheckpointContents) (last_checkpoint_of_epoch : Bool) :
    List SinkEvent × SuiResult :=
  match LogCheckpointOutput.checkpoint_created summary contents
      last_checkpoint_of_epoch with
  | (logEvents, Except.error e) => (logEvents, Except.error e)
  | (logEvents, Except.ok ()) =>
    -- if last_checkpoint_of_epoch { /- Augment with the change epoch transaction. -/ }
    let signed := SignedCheckpointSummary.new_from_summary summary
      self.authority self.signer
    let message : CheckpointSignatureMessage := { summary := signed }
    let transaction :=
      ConsensusTransaction.new_checkpoint_signature_message message
    (logEvents ++ [SinkEvent.submitToConsensus transaction],
     self.sender transaction)

/-- The signed summary `checkpoint_created` constructs for a given input
summary. -/
def SubmitCheckpointToConsensus.signedSummary
    (self : SubmitCheckpointToConsensus) (summary : CheckpointSummary) :
    SignedCheckpointSummary :=
  SignedCheckpointSummary.new_from_summary summary self.authority self.signer

/-- The consensus transaction `checkpoint_created` submits for a given
input summary. -/
def SubmitCheckpointToConsensus.submittedTransaction
    (self : SubmitCheckpointToConsensus) (summary : CheckpointSummary) :
    ConsensusTransaction :=
  ConsensusTransaction.new_checkpoint_signature_message
    { summary := self.signedSummary summary }

/-- Erase the epoch-boundary flag from a log record; used to state that the
flag influences nothing but that one log field. -/
def SinkEvent.eraseEpochFlag : SinkEvent → SinkEvent
  | SinkEvent.logCreateCheckpoint d s p n c _ =>
      SinkEvent.logCreateCheckpoint d s p n c false
  | e => e

/-- State of the state-sync forwarding pair: the bounded queue shared by
the sender half and the forwarding task, plus two ghost histories.
`buffer` is the queued certificates in FIFO order; `sendersOpen` is whether
at least one sender handle still exists; `receiverOpen` is whether the
receiver (owned by the forwarding task's loop) still exists; `delivered`
records every call made to the state-sync ingestion capability, in order;
`enqueued` records every certificate ever enqueued, in order. -/
structure SystemState where
  capacity : Nat
  buffer : List CertifiedCheckpointSummary
  sendersOpen : Bool
  receiverOpen : Bool
  delivered : List VerifiedCheckpoint
  enqueued : List CertifiedCheckpointSummary
deriving DecidableEq, Repr

/-- Modelled from the spec: `tokio::sync::mpsc::channel(capacity)` — a
fresh bounded FIFO queue with both halves alive and nothing buffered. -/
def mpscChannel (capacity : Nat) : SystemState :=
  { capacity := capacity, buffer := [], sendersOpen := true,
    receiverOpen := true, delivered := [], enqueued := [] }

/-- `SendCheckpointToStateSync::new`: create the linked sender/task pair
over `mpsc::channel(128)`.  The returned state is the shared channel. -/
def SendCheckpointToStateSync.new : SystemState := mpscChannel 128

/-- `SendCheckpointToStateSync`'s
`CertifiedCheckpointOutput::certified_checkpoint_created`: log the
certified-checkpoint record, then send a clone of the certificate on the
queue; a send failure (receiver dropped) is logged as an error and
swallowed; the call always returns `Ok(())`.  Suspension of a send on a
full buffer is modelled by the transition system below; this function gives
the state, trace and result once the call completes. -/
def SendCheckpointToStateSync.certified_checkpoint_created
    (s : SystemState) (summary : CertifiedCheckpointSummary) :
    SystemState × List SinkEvent × SuiResult :=
  let logEvents := [SinkEvent.logCertifiedCheckpoint
    summary.summary.sequence_number summary.summary.digest]
  if s.receiverOpen then
    ({ s with buffer := s.buffer ++ [summary.to_owned],
              enqueued := s.enqueued ++ [summary.to_owned] },
     logEvents, Except.ok ())
  else
    (s, logEvents ++ [SinkEvent.logSendToStateSyncError], Except.ok ())

/-- Labels of the transition system for the forwarding pair. -/
inductive StepLabel where
  /-- A producer's pending `sender.send(c)` completes. -/
  | enqueue (c : CertifiedCheckpointSummary)
  /-- The forwarding task's `recv()` yields `c`; the task converts it via
  `VerifiedCheckpoint::new_unchecked` and calls `handle.send_checkpoint`. -/
  | deliver (c : CertifiedCheckpointSummary)
  /-- The last sender handle is dropped. -/
  | closeSenders
  /-- `recv()` returns `None` (queue closed and drained): the loop, and
  with it the receiver, ends. -/
  | taskExit
deriving DecidableEq, Repr

/-- One step of the forwarding pair, mirroring the loop in
`ForwardToStateSyncTask::start` and the semantics of the bounded queue
(modelled from the spec): a send completes only while the receiver exists
and the buffer holds fewer than `capacity` items; `recv` yields the oldest
buffered item; the loop ends exactly when all senders are dropped and the
buffer is drained. -/
inductive SysStep : SystemState → StepLabel → SystemState → Prop where
  | enqueue (s : SystemState) (c : CertifiedCheckpointSummary)
      (hs : s.sendersOpen = true) (hr : s.receiverOpen = true)
      (hcap : s.buffer.length < s.capacity) :
      SysStep s (StepLabel.enqueue c)
        { s with buffer := s.buffer ++ [c], enqueued := s.enqueued ++ [c] }
  | deliver (s : SystemState) (c : CertifiedCheckpointSummary)
      (rest : List CertifiedCheckpointSummary)
      (hr : s.receiverOpen = true) (hb : s.buffer = c :: rest) :
      SysStep s (StepLabel.deliver c)
        { s with buffer := rest,
                 delivered := s.delivered ++ [VerifiedCheckpoint.new_unchecked c] }
  | closeSenders (s : SystemState) (hs : s.sendersOpen = true) :
      SysStep s StepLabel.closeSenders { s with sendersOpen := false }
  | taskExit (s : SystemState) (hr : s.receiverOpen = true)
      (hs : s.sendersOpen = false) (hb : s.buffer = []) :
      SysStep s StepLabel.taskExit { s with receiverOpen := false }

/-- States reachable from the freshly constructed forwarding pair. -/
inductive ReachableState : SystemState → Prop where
  | init : ReachableState SendCheckpointToStateSync.new
  | step {s s' : SystemState} {l : StepLabel} :
      ReachableState s → SysStep s l s' → ReachableState s'

/-- FIFO invariant of the forwarding pair: what has been delivered to
state-sync, followed by the unchecked conversion of what is still
buffered, is exactly the unchecked conversion of everything ever
enqueued, in order. -/
lemma fifo_invariant (s : SystemState) (h : ReachableState s) :
    s.delivered ++ s.buffer.map VerifiedCheckpoint.new_unchecked
      = s.enqueued.map VerifiedCheckpoint.new_unchecked := by
  induction h with
  | init => rfl
  | step hr hstep ih =>
    cases hstep with
    | enqueue c hs hrcv hcap =>
      simp only [List.map_append, List.map_cons, List.map_nil,
        ← List.append_assoc, ih]
    | deliver c rest hrcv hb =>
      rw [hb] at ih
      simp only [List.map_cons] at ih
      simpa [List.append_assoc] using ih
    | closeSenders hs => simpa using ih
    | taskExit hrcv hs hb => simpa using ih

/-- Sample summary used by witnesses. -/
def sampleSummary : CheckpointSummary :=
  { sequence_number := 7, previous_digest := some 3, content_digest := 5 }

/-- Sample contents used by witnesses. -/
def sampleContents : CheckpointContents := { transactions := [11, 12, 13] }

/-- Sample certified checkpoint used by witnesses. -/
def cert0 : CertifiedCheckpointSummary :=
  { summary := { sequence_number := 0, previous_digest := none,
                 content_digest := 0 },
    auth_signature := 0 }

/-- Second sample certified checkpoint used by witnesses. -/
def cert1 : CertifiedCheckpointSummary :=
  { summary := { sequence_number := 1, previous_digest := some 0,
                 content_digest := 1 },
    auth_signature := 1 }

/-- C1: for every `CheckpointSummary` S, validator identity V and signing
key K, `SubmitCheckpointToConsensus::checkpoint_created` produces a
`SignedCheckpointSummary` whose embedded summary equals S and whose
identity equals V, and the `ConsensusTransaction` it submits contains
exactly one checkpoint-signature-message payload wrapping that signed
summary. -/
theorem checkpoint_created_signs_and_submits
    (self : SubmitCheckpointToConsensus) (summary : CheckpointSummary)
    (contents : CheckpointContents) (last_checkpoint_of_epoch : Bool) :
    ∃ signed : SignedCheckpointSummary,
      signed.summary = summary ∧
      signed.auth_signature.authority = self.authority ∧
      submittedTransactions
          (self.checkpoint_created summary contents last_checkpoint_of_epoch).1
        = [ConsensusTransaction.new_checkpoint_signature_message
            { summary := signed }] ∧
      (ConsensusTransaction.new_checkpoint_signature_message
          { summary := signed }).checkpointSignaturePayloads = [signed] :=
  ⟨self.signedSummary summary, rfl, rfl, rfl, rfl⟩

/-- C2: every call to `SubmitCheckpointToConsensus::checkpoint_created`
emits the observability sink's log records before the submission event,
and — since the sink `self` is arbitrary, in particular its submission
result may be any error — the log records appear in the trace regardless
of the submission outcome. -/
theorem log_emitted_before_submission
    (self : SubmitCheckpointToConsensus) (summary : CheckpointSummary)
    (contents : CheckpointContents) (last_checkpoint_of_epoch : Bool) :
    (self.checkpoint_created summary contents last_checkpoint_of_epoch).1
      = (LogCheckpointOutput.checkpoint_created summary contents
          last_checkpoint_of_epoch).1
        ++ [SinkEvent.submitToConsensus (self.submittedTransaction summary)] ∧
    (LogCheckpointOutput.checkpoint_created summary contents
        last_checkpoint_of_epoch).1.all SinkEvent.isLog = true :=
  ⟨rfl, rfl⟩

/-- C6: every call to `SubmitCheckpointToConsensus::checkpoint_created`
submits exactly one consensus transaction (no retry, no buffering), and
the call's result is exactly the result of that single submission
attempt; logging and signing contribute no error. -/
theorem submission_attempted_once_result_verbatim
    (self : SubmitCheckpointToConsensus) (summary : CheckpointSummary)
    (contents : CheckpointContents) (last_checkpoint_of_epoch : Bool) :
    submittedTransactions
        (self.checkpoint_created summary contents last_checkpoint_of_epoch).1
      = [self.submittedTransaction summary] ∧
    (self.checkpoint_created summary contents last_checkpoint_of_epoch).2
      = self.sender (self.submittedTransaction summary) :=
  ⟨rfl, rfl⟩

/-- C7: the `last_checkpoint_of_epoch` flag influences only the emitted
log record: the returned result, the submitted transactions, and the whole
trace with the flag field erased are identical for the two flag values. -/
theorem epoch_flag_affects_only_log
    (self : SubmitCheckpointToConsensus) (summary : CheckpointSummary)
    (contents : CheckpointContents) :
    (self.checkpoint_created summary contents true).2
      = (self.checkpoint_created summary contents false).2 ∧
    submittedTransactions (self.checkpoint_created summary contents true).1
      = submittedTransactions (self.checkpoint_created summary contents false).1 ∧
    (self.checkpoint_created summary contents true).1.map SinkEvent.eraseEpochFlag
      = (self.checkpoint_created summary contents false).1.map
          SinkEvent.eraseEpochFlag :=
  ⟨rfl, rfl, rfl⟩

/-- C8: `LogCheckpointOutput`'s `checkpoint_created` and
`certified_checkpoint_created` always return `Ok(())`, and every event
they emit is a log record (no side effect beyond logging). -/
theorem log_checkpoint_output_never_fails
    (summary : CheckpointSummary) (contents : CheckpointContents)
    (last_checkpoint_of_epoch : Bool) (certified : CertifiedCheckpointSummary) :
    (LogCheckpointOutput.checkpoint_created summary contents
        last_checkpoint_of_epoch).2 = Except.ok () ∧
    (LogCheckpointOutput.certified_checkpoint_created certified).2
      = Except.ok () ∧
    (LogCheckpointOutput.checkpoint_created summary contents
        last_checkpoint_of_epoch).1.all SinkEvent.isLog = true ∧
    (LogCheckpointOutput.certified_checkpoint_created certified).1.all
        SinkEvent.isLog = true :=
  ⟨rfl, rfl, rfl, rfl⟩

/-- C10: with a fixed signing capability, identity and consensus-submission
capability, `checkpoint_created` is deterministic: two sinks with equal
capabilities construct equal signed summaries and equal consensus
transactions, and produce identical traces and results on equal inputs. -/
theorem checkpoint_created_deterministic
    (a b : SubmitCheckpointToConsensus) (hsigner : a.signer = b.signer)
    (hauth : a.authority = b.authority) (hsender : a.sender = b.sender)
    (summary : CheckpointSummary) (contents : CheckpointContents)
    (last_checkpoint_of_epoch : Bool) :
    a.signedSummary summary = b.signedSummary summary ∧
    a.submittedTransaction summary = b.submittedTransaction summary ∧
    a.checkpoint_created summary contents last_checkpoint_of_epoch
      = b.checkpoint_created summary contents last_checkpoint_of_epoch := by
  cases a
  cases b
  cases hsigner
  cases hauth
  cases hsender
  exact ⟨rfl, rfl, rfl⟩

/-- Sample consensus sink used by the C10 witness. -/
def sampleSinkA : SubmitCheckpointToConsensus :=
  { sender := fun _ => Except.ok (),
    signer := fun s => s.digest + 1,
    authority := 9 }

/-- A second sink with the same capabilities, used by the C10 witness. -/
def sampleSinkB : SubmitCheckpointToConsensus :=
  { sender := fun _ => Except.ok (),
    signer := fun s => s.digest + 1,
    authority := 9 }

/-- Witness for C10 at concrete sinks and inputs. -/
theorem checkpoint_created_deterministic_witness :
    sampleSinkA.signedSummary sampleSummary
      = sampleSinkB.signedSummary sampleSummary ∧
    sampleSinkA.submittedTransaction sampleSummary
      = sampleSinkB.submittedTransaction sampleSummary ∧
    sampleSinkA.checkpoint_created sampleSummary sampleContents false
      = sampleSinkB.checkpoint_created sampleSummary sampleContents false :=
  checkpoint_created_deterministic sampleSinkA sampleSinkB rfl rfl rfl
    sampleSummary sampleContents false

/-- C3: if the queue's receiver has been dropped,
`SendCheckpointToStateSync::certified_checkpoint_created` leaves the queue
unchanged (the enqueue fails), logs the failure as an error after the
certified-checkpoint record, and still returns `Ok(())`; moreover the call
returns `Ok(())` for every input and queue state. -/
theorem certified_checkpoint_created_absorbs_send_failure
    (s : SystemState) (summary : CertifiedCheckpointSummary)
    (h : s.receiverOpen = false) :
    (SendCheckpointToStateSync.certified_checkpoint_created s summary).1 = s ∧
    (SendCheckpointToStateSync.certified_checkpoint_created s summary).2.1
      = [SinkEvent.logCertifiedCheckpoint summary.summary.sequence_number
           summary.summary.digest,
         SinkEvent.logSendToStateSyncError] ∧
    ∀ (s2 : SystemState) (c2 : CertifiedCheckpointSummary),
      (SendCheckpointToStateSync.certified_checkpoint_created s2 c2).2.2
        = Except.ok () := by
  refine ⟨?_, ?_, ?_⟩
  · simp [SendCheckpointToStateSync.certified_checkpoint_created, h]
  · simp [SendCheckpointToStateSync.certified_checkpoint_created, h]
  · intro s2 c2
    cases h2 : s2.receiverOpen <;>
      simp [SendCheckpointToStateSync.certified_checkpoint_created, h2]

/-- A queue state whose receiver has been dropped, used by witnesses. -/
def closedState : SystemState :=
  { capacity := 128, buffer := [], sendersOpen := true, receiverOpen := false,
    delivered := [], enqueued := [] }

/-- Witness for C3 at a concrete closed state and certificate. -/
theorem certified_checkpoint_created_absorbs_send_failure_witness :
    (SendCheckpointToStateSync.certified_checkpoint_created closedState cert0).1
      = closedState ∧
    (SendCheckpointToStateSync.certified_checkpoint_created closedState cert0).2.1
      = [SinkEvent.logCertifiedCheckpoint cert0.summary.sequence_number
           cert0.summary.digest,
         SinkEvent.logSendToStateSyncError] ∧
    ∀ (s2 : SystemState) (c2 : CertifiedCheckpointSummary),
      (SendCheckpointToStateSync.certified_checkpoint_created s2 c2).2.2
        = Except.ok () :=
  certified_checkpoint_created_absorbs_send_failure closedState cert0 rfl

/-- C4: in every reachable state of the forwarding pair, the ingestion
calls already made to state-sync, followed by the unchecked conversion of
the still-buffered certificates, equal the unchecked conversion of all
certificates ever enqueued — so deliveries happen in FIFO order, once
each, with no reordering, duplication or deduplication, and once the
buffer drains, state-sync has been invoked exactly once per enqueued
certificate in enqueue order.  The final conjunct links the sink to the
transition system: a completed `certified_checkpoint_created` call on an
open, non-full queue is exactly an enqueue step of the clone of the
certificate passed to the sink. -/
theorem state_sync_fifo_exact_delivery (s : SystemState)
    (h : ReachableState s) :
    s.delivered ++ s.buffer.map VerifiedCheckpoint.new_unchecked
      = s.enqueued.map VerifiedCheckpoint.new_unchecked ∧
    (s.buffer = [] →
      s.delivered = s.enqueued.map VerifiedCheckpoint.new_unchecked) ∧
    ∀ (s2 : SystemState) (c : CertifiedCheckpointSummary),
      s2.sendersOpen = true → s2.receiverOpen = true →
      s2.buffer.length < s2.capacity →
      SysStep s2 (StepLabel.enqueue c.to_owned)
        (SendCheckpointToStateSync.certified_checkpoint_created s2 c).1 := by
  refine ⟨fifo_invariant s h, ?_, ?_⟩
  · intro hb
    have hinv := fifo_invariant s h
    rw [hb] at hinv
    simpa using hinv
  · intro s2 c hs hr hcap
    have hstep := SysStep.enqueue s2 c.to_owned hs hr hcap
    simpa [SendCheckpointToStateSync.certified_checkpoint_created, hr,
      CertifiedCheckpointSummary.to_owned] using hstep

/-- A concrete reachable state of the forwarding pair: two certificates
enqueued, the first already delivered. -/
def runState : SystemState :=
  { capacity := 128, buffer := [cert1], sendersOpen := true,
    receiverOpen := true,
    delivered := [VerifiedCheckpoint.new_unchecked cert0],
    enqueued := [cert0, cert1] }

/-- Witness for C4 along the run enqueue `cert0`, enqueue `cert1`,
deliver `cert0`. -/
theorem state_sync_fifo_exact_delivery_witness :
    runState.delivered ++ runState.buffer.map VerifiedCheckpoint.new_unchecked
      = runState.enqueued.map VerifiedCheckpoint.new_unchecked ∧
    (runState.buffer = [] →
      runState.delivered
        = runState.enqueued.map VerifiedCheckpoint.new_unchecked) ∧
    ∀ (s2 : SystemState) (c : CertifiedCheckpointSummary),
      s2.sendersOpen = true → s2.receiverOpen = true →
      s2.buffer.length < s2.capacity →
      SysStep s2 (StepLabel.enqueue c.to_owned)
        (SendCheckpointToStateSync.certified_checkpoint_created s2 c).1 :=
  state_sync_fifo_exact_delivery runState
    (ReachableState.step
      (ReachableState.step
        (ReachableState.step ReachableState.init
          (SysStep.enqueue SendCheckpointToStateSync.new cert0 rfl rfl
            (by decide)))
        (SysStep.enqueue _ cert1 rfl rfl (by decide)))
      (SysStep.deliver _ cert0 [cert1] rfl rfl))

/-- C5: the forwarding task's loop ends (`recv` returns `None`, dropping
the receiver) only when all senders are dropped and the buffer is drained;
once the receiver is gone no step changes the ingestion history (no
further state-sync calls); and whenever the queue is closed and drained
while the loop still runs, the exit step is enabled. -/
theorem forwarding_loop_terminates_only_on_closure :
    (∀ s s' : SystemState, SysStep s StepLabel.taskExit s' →
        s.sendersOpen = false ∧ s.buffer = [] ∧ s'.receiverOpen = false) ∧
    (∀ (s : SystemState) (l : StepLabel) (s' : SystemState),
        SysStep s l s' → s.receiverOpen = false →
        s'.delivered = s.delivered) ∧
    (∀ s : SystemState, s.receiverOpen = true → s.sendersOpen = false →
        s.buffer = [] → ∃ s', SysStep s StepLabel.taskExit s') := by
  refine ⟨?_, ?_, ?_⟩
  · intro s s' hstep
    cases hstep with
    | taskExit hr hs hb => exact ⟨hs, hb, rfl⟩
  · intro s l s' hstep hclosed
    cases hstep <;> simp_all
  · intro s hr hs hb
    exact ⟨_, SysStep.taskExit s hr hs hb⟩

/-- A state with all senders dropped, the buffer drained and the loop
still running, used by the C5 witness. -/
def drainedState : SystemState :=
  { capacity := 128, buffer := [], sendersOpen := false, receiverOpen := true,
    delivered := [VerifiedCheckpoint.new_unchecked cert0],
    enqueued := [cert0] }

/-- Witness for C5 at concrete states: the exit step from `drainedState`
is enabled and implies closure; a step taken after the receiver is gone
(dropping the senders of `closedState`) leaves the ingestion history
unchanged. -/
theorem forwarding_loop_terminates_only_on_closure_witness :
    (drainedState.sendersOpen = false ∧ drainedState.buffer = [] ∧
      SystemState.receiverOpen { drainedState with receiverOpen := false }
        = false) ∧
    SystemState.delivered { closedState with sendersOpen := false }
      = closedState.delivered ∧
    ∃ s', SysStep drainedState StepLabel.taskExit s' :=
  ⟨forwarding_loop_terminates_only_on_closure.1 drainedState
      { drainedState with receiverOpen := false }
      (SysStep.taskExit drainedState rfl rfl rfl),
   forwarding_loop_terminates_only_on_closure.2.1 closedState
      StepLabel.closeSenders { closedState with sendersOpen := false }
      (SysStep.closeSenders closedState rfl) rfl,
   forwarding_loop_terminates_only_on_closure.2.2 drainedState rfl rfl rfl⟩

/-- C9: the queue created by `SendCheckpointToStateSync::new` has capacity
exactly 128; a send on a buffer holding `capacity` unconsumed items cannot
complete (the caller stays suspended), and it can complete as soon as
space frees while the halves are alive.  The other way a suspended send
resumes — the receiver being dropped — makes it fail instead, which is
the case proved for C3. -/
theorem bounded_queue_capacity_and_backpressure :
    SendCheckpointToStateSync.new.capacity = 128 ∧
    (∀ (s : SystemState) (c : CertifiedCheckpointSummary) (s' : SystemState),
        s.buffer.length = s.capacity →
        ¬ SysStep s (StepLabel.enqueue c) s') ∧
    (∀ (s : SystemState) (c : CertifiedCheckpointSummary),
        s.sendersOpen = true → s.receiverOpen = true →
        s.buffer.length < s.capacity →
        ∃ s', SysStep s (StepLabel.enqueue c) s') := by
  refine ⟨rfl, ?_, ?_⟩
  · intro s c s' hfull hstep
    cases hstep
    omega
  · intro s c hs hr hcap
    exact ⟨_, SysStep.enqueue s c hs hr hcap⟩

/-- A queue state with 128 buffered, unconsumed certificates, used by the
C9 witness. -/
def fullState : SystemState :=
  { capacity := 128, buffer := List.replicate 128 cert0, sendersOpen := true,
    receiverOpen := true, delivered := [],
    enqueued := List.replicate 128 cert0 }

/-- Witness for C9: the capacity of a fresh pair is 128, no enqueue step
exists from the full state, and an enqueue step exists from the fresh
(empty) state. -/
theorem bounded_queue_capacity_and_backpressure_witness :
    SendCheckpointToStateSync.new.capacity = 128 ∧
    ¬ SysStep fullState (StepLabel.enqueue cert1)
        { fullState with buffer := fullState.buffer ++ [cert1],
                         enqueued := fullState.enqueued ++ [cert1] } ∧
    ∃ s', SysStep SendCheckpointToStateSync.new (StepLabel.enqueue cert0) s' :=
  ⟨bounded_queue_capacity_and_backpressure.1,
   bounded_queue_capacity_and_backpressure.2.1 fullState cert1 _
     (by simp [fullState]),
   bounded_queue_capacity_and_backpressure.2.2 SendCheckpointToStateSync.new
     cert0 rfl rfl (by decide)⟩
